import Mathlib

/-!
Shallow embedding of the humthreads thread-lifecycle and introspection
library (crate sources under src/): error kinds, join handles, the lazy
map handle, the activity cell with scoped-activity guards, the shutdown
flag, the process-wide registry, the RAII ThreadGuard, and the Builder.
Machine state (the registry HashMap, the shared activity cells, the
capacity-1 join-check channel) is modeled by explicit state passing;
concurrency is modeled by sequential interleavings of the operations.
-/

namespace Humthreads

/-- Exhaustive list of possible errors emitted by the crate
(src/src/error.rs, ErrorKind).  The Join variant carries the panic
payload; the payload type is opaque to the library, so it is a type
parameter P here. -/
inductive ErrorKind (P : Type) where
  | join (payload : P)
  | joinTimeout
  | joinedAlready
  | spawn
deriving DecidableEq, Repr

/-- Short form alias for functions returning errors (src/src/error.rs). -/
abbrev Result (P T : Type) := Except (ErrorKind P) T

/-- Terminal outcome of the OS-level join of a worker thread: the worker
function returned a value, or it panicked with a payload.  This is what
std JoinHandle.join would report once the thread has exited. -/
inductive JoinOutcome (P T : Type) where
  | ok (v : T)
  | panicked (payload : P)
deriving DecidableEq, Repr

/-- The result Thread.join builds from the OS-level join:
handle.join().map_err(|error| ErrorKind::Join(Mutex::new(error)))
(src/src/handles/mod.rs lines 90-93). -/
def joinOutcomeResult {P T : Type} : JoinOutcome P T → Result P T
  | .ok v => Except.ok v
  | .panicked p => Except.error (ErrorKind.join p)

/-- Parent-side handle on a thread (src/src/handles/mod.rs, struct Thread).
The field joinCell models the RefCell with the Option JoinHandle inside:
some o while the single-use join capability is unconsumed (o being the
outcome the OS join will eventually report), none once consumed.
The join-check receiver and shutdown flag are modeled separately. -/
structure Thread (P T : Type) where
  joinCell : Option (JoinOutcome P T)

/-- Thread.join (src/src/handles/mod.rs lines 77-94): take the handle out
of the cell; if it is already gone (taken by an earlier call, or held by a
racing call that wins the borrow) return JoinedAlready, otherwise perform
the OS join and map a panic to a Join error.  Returns the result together
with the post-call handle state. -/
def Thread.join {P T : Type} (t : Thread P T) : Result P T × Thread P T :=
  match t.joinCell with
  | none => (Except.error ErrorKind.joinedAlready, t)
  | some o => (joinOutcomeResult o, { joinCell := none })

/-- Outcome of crossbeam recv_timeout on the join-check channel: a message
was received, the wait timed out, or the sender side is disconnected. -/
inductive RecvOutcome where
  | received
  | timeout
  | disconnected
deriving DecidableEq, Repr

/-- Thread.join_timeout (src/src/handles/mod.rs lines 99-104):
match on recv_timeout; on Timeout return JoinTimeout, on anything else
(message received or sender disconnected) fall through to join. -/
def Thread.join_timeout {P T : Type} (t : Thread P T) (recv : RecvOutcome) :
    Result P T × Thread P T :=
  match recv with
  | .timeout => (Except.error ErrorKind.joinTimeout, t)
  | _ => t.join

/-- Thread handle that maps the return of a join operation
(src/src/handles/map.rs, struct MapThread).  The field closure models the
RefCell with the Option boxed-closure inside; the closure environment is
the captured Option JoinHandle of the original handle together with the
transform, so it is modeled as that pair of data. -/
structure MapThread (P S T : Type) where
  closure : Option (Option (JoinOutcome P S) × (S → T))

/-- The body of the closure built by Thread.map
(src/src/handles/mod.rs lines 115-126): take the captured handle; if it is
gone return JoinedAlready, otherwise join, map a panic to a Join error and
apply the transform to a success value. -/
def runMapClosure {P S T : Type} (captured : Option (JoinOutcome P S)) (f : S → T) :
    Result P T :=
  match captured with
  | none => Except.error ErrorKind.joinedAlready
  | some o => (joinOutcomeResult o).map f

/-- Thread.map (src/src/handles/mod.rs lines 109-128): move the join
capability out of the handle, store it unexamined together with the
transform inside a closure, and wrap that closure in a MapThread.
Nothing is joined and the transform is not applied here. -/
def Thread.map {P S T : Type} (t : Thread P S) (f : S → T) : MapThread P S T :=
  { closure := some (t.joinCell, f) }

/-- MapThread.join (src/src/handles/map.rs lines 49-64): take the closure
out of the cell; if it is already gone return JoinedAlready, otherwise run
it.  Returns the result together with the post-call handle state. -/
def MapThread.join {P S T : Type} (m : MapThread P S T) : Result P T × MapThread P S T :=
  match m.closure with
  | none => (Except.error ErrorKind.joinedAlready, m)
  | some (captured, f) => (runMapClosure captured f, { closure := none })

/-- MapThread.join_timeout (src/src/handles/map.rs lines 69-74): same
two-phase shape as Thread.join_timeout. -/
def MapThread.join_timeout {P S T : Type} (m : MapThread P S T) (recv : RecvOutcome) :
    Result P T × MapThread P S T :=
  match recv with
  | .timeout => (Except.error ErrorKind.joinTimeout, m)
  | _ => m.join

/-- Iterated calls: joinIter t n is the result of the (n+1)-th call of
join on a handle whose state starts at t. -/
def joinIter {P T : Type} (t : Thread P T) : Nat → Result P T × Thread P T
  | 0 => t.join
  | n + 1 => (joinIter t n).2.join

/-- Internal status tracking for registered threads
(src/src/status.rs, struct RegisteredStatus).  The shared
Arc-Mutex-Option-String activity cell is modeled by a reference
(activityRef) into the heap of cells of the system state; in the source,
spawn calls RegisteredStatus::new(full_name, name), so the field name
holds the full name and short_name holds the OS short name. -/
structure RegisteredStatus where
  activityRef : Nat
  name : String
  short_name : String
deriving DecidableEq, Repr

/-- Public view of a point in time status of a thread
(src/src/status.rs, struct ThreadStatus): plain values, no references. -/
structure ThreadStatus where
  activity : Option String
  name : String
  short_name : String
deriving DecidableEq, Repr

/-- The mutable state the library shares across threads: the process-wide
THREADS_REGISTRY map (src/src/registry.rs, modeled as an association list
with HashMap insert and remove semantics), the heap of shared activity
cells, and the allocator for fresh cells. -/
structure SysState where
  registry : List (Nat × RegisteredStatus)
  cells : Nat → Option String
  nextCell : Nat

/-- The registry at process start: lazily initialized to an empty map
(src/src/registry.rs lines 10-14), no cells allocated. -/
def SysState.initial : SysState :=
  { registry := [], cells := fun _ => none, nextCell := 0 }

/-- register_thread (src/src/registry.rs lines 33-38): HashMap insert,
replacing any entry at the same key. -/
def register_thread (id : Nat) (status : RegisteredStatus) (s : SysState) : SysState :=
  { s with registry := (id, status) :: s.registry.filter (fun e => e.1 != id) }

/-- deregister_thread (src/src/registry.rs lines 25-30): HashMap remove. -/
def deregister_thread (id : Nat) (s : SysState) : SysState :=
  { s with registry := s.registry.filter (fun e => e.1 != id) }

/-- From a RegisteredStatus reference to a ThreadStatus snapshot
(src/src/status.rs lines 47-60): lock the shared activity cell, clone its
contents, and clone the two name strings. -/
def threadStatusFrom (s : SysState) (st : RegisteredStatus) : ThreadStatus :=
  { activity := s.cells st.activityRef, name := st.name, short_name := st.short_name }

/-- registered_threads (src/src/registry.rs lines 41-48): lock the
registry and map every entry to its ThreadStatus snapshot. -/
def registered_threads (s : SysState) : List ThreadStatus :=
  s.registry.map (fun e => threadStatusFrom s e.2)

/-- Write an activity cell of the heap: models assigning through the
MutexGuard on one shared Arc-Mutex-Option-String cell. -/
def writeCell (s : SysState) (ref : Nat) (v : Option String) : SysState :=
  { s with cells := fun k => if k = ref then v else s.cells k }

/-- RegisteredStatus::new (src/src/status.rs lines 20-28): allocate a
fresh shared activity cell holding none and record the two names. -/
def RegisteredStatus.new (name short_name : String) (s : SysState) :
    RegisteredStatus × SysState :=
  ({ activityRef := s.nextCell, name := name, short_name := short_name },
   { s with cells := fun k => if k = s.nextCell then none else s.cells k,
            nextCell := s.nextCell + 1 })

/-- State of the capacity-1 join-check channel
(crossbeam bounded(1), created in Builder::spawn): how many messages sit
in the buffer and whether the receiver side is still alive. -/
structure Channel where
  buffered : Nat
  receiverAlive : Bool
deriving DecidableEq, Repr

/-- try_send on the capacity-1 channel: fails (without blocking) when the
receiver is gone or the one-slot buffer is full, succeeds otherwise.  The
Bool reports success; the caller in ThreadGuard::drop ignores it. -/
def Channel.try_send (c : Channel) : Channel × Bool :=
  if c.receiverAlive = false then (c, false)
  else if 1 ≤ c.buffered then (c, false)
  else ({ c with buffered := c.buffered + 1 }, true)

/-- Thread lifecycle guard (src/src/handles/mod.rs lines 235-244,
struct ThreadGuard and ThreadGuard::new): constructing it calls
register_thread with the thread identity and its RegisteredStatus. -/
structure ThreadGuard where
  id : Nat
deriving DecidableEq, Repr

/-- ThreadGuard::new (src/src/handles/mod.rs lines 241-244): register the
thread, then hold the id and the join-check sender. -/
def ThreadGuard.new (id : Nat) (status : RegisteredStatus) (s : SysState) :
    ThreadGuard × SysState :=
  ({ id := id }, register_thread id status s)

/-- Drop for ThreadGuard (src/src/handles/mod.rs lines 247-253): make one
non-blocking try_send on the join-check channel with the error discarded,
then deregister the thread. -/
def ThreadGuard.drop (g : ThreadGuard) (ch : Channel) (s : SysState) :
    Channel × SysState :=
  ((ch.try_send).1, deregister_thread g.id s)

/-- Thread factory (src/src/builder.rs, struct Builder): the short name
handed to the OS and the full name used for introspection. -/
structure Builder where
  full_name : String
  name : String
deriving DecidableEq, Repr

/-- Builder::new (src/src/builder.rs lines 32-40): both names start as
the given name. -/
def Builder.new (name : String) : Builder :=
  { name := name, full_name := name }

/-- Builder::full_name (src/src/builder.rs lines 49-52): replace the full
name used for introspection. -/
def Builder.withFullName (b : Builder) (name : String) : Builder :=
  { b with full_name := name }

/-- The registration prologue run inside the spawned thread before the
user function (src/src/builder.rs lines 72-78): build the
RegisteredStatus from new(full_name, name), take its shared activity
cell, and construct the ThreadGuard (which registers).  Returns the new
state together with the activity cell the ThreadScope wraps. -/
def Builder.spawnRegister (b : Builder) (id : Nat) (s : SysState) : SysState × Nat :=
  let p := RegisteredStatus.new b.full_name b.name s
  let g := ThreadGuard.new id p.1 p.2
  (g.2, p.1.activityRef)

/-- ThreadScope::activity (src/src/handles/mod.rs lines 181-188) acting
on the contents of the shared activity cell: overwrite with some text. -/
def scopeActivity (cell : Option String) (text : String) : Option String :=
  some text

/-- ThreadScope::idle (src/src/handles/mod.rs lines 191-197): clear the
reported activity. -/
def scopeIdle (cell : Option String) : Option String :=
  none

/-- RAII scoped-activity token (src/src/handles/mod.rs lines 29-32,
struct ThreadScopeActivityGuard): holds the displaced previous value. -/
structure ThreadScopeActivityGuard where
  current : Option String
deriving DecidableEq, Repr

/-- ThreadScope::scoped_activity (src/src/handles/mod.rs lines 204-215):
clone the current cell contents into the guard, then overwrite the cell
with the new text.  Returns the guard and the new cell contents. -/
def scoped_activity (cell : Option String) (text : String) :
    ThreadScopeActivityGuard × Option String :=
  ({ current := cell }, some text)

/-- Drop for ThreadScopeActivityGuard (src/src/handles/mod.rs lines
34-42): write the displaced value back into the cell, whatever the cell
holds now. -/
def ThreadScopeActivityGuard.drop (g : ThreadScopeActivityGuard)
    (cell : Option String) : Option String :=
  g.current

/-- Create one nested scoped-activity guard per text, left to right:
returns the guards in creation order and the final cell contents. -/
def mkGuards (cell : Option String) : List String →
    List ThreadScopeActivityGuard × Option String
  | [] => ([], cell)
  | t :: ts =>
    let p := scoped_activity cell t
    let q := mkGuards p.2 ts
    (p.1 :: q.1, q.2)

/-- Release a list of guards in reverse creation order (the last guard of
the list is dropped first), starting from the given cell contents. -/
def releaseAllRev (gs : List ThreadScopeActivityGuard) (cell : Option String) :
    Option String :=
  gs.foldr ThreadScopeActivityGuard.drop cell

/-- The cell contents active immediately before the creation of each
guard in mkGuards cell ts: before guard 0 it is cell, before guard i+1
it is some ts[i]. -/
def cellBefore (cell : Option String) (ts : List String) : List (Option String) :=
  cell :: ts.map some

/-- The shared shutdown flag at spawn time: AtomicBool::new(false)
(src/src/builder.rs line 68). -/
def shutdownInit : Bool := false

/-- Thread::request_shutdown and MapThread::request_shutdown
(src/src/handles/mod.rs lines 134-136, src/src/handles/map.rs lines
79-81): store true into the shared flag. -/
def request_shutdown (flag : Bool) : Bool := true

/-- ThreadScope::should_shutdown (src/src/handles/mod.rs lines 218-220):
load the shared flag. -/
def should_shutdown (flag : Bool) : Bool := flag

/-- The operations of the system that touch the shared shutdown flag:
the store in request_shutdown and the load in should_shutdown are the
only accesses in the sources. -/
inductive FlagOp where
  | request
  | read
deriving DecidableEq, Repr

/-- Effect of one flag-touching operation on the flag. -/
def applyFlagOp (op : FlagOp) (flag : Bool) : Bool :=
  match op with
  | .request => request_shutdown flag
  | .read => flag

/-- Effect of a sequence of flag-touching operations. -/
def runFlagOps (ops : List FlagOp) (flag : Bool) : Bool :=
  ops.foldl (fun b op => applyFlagOp op b) flag

/-!
Trace model for the registry lifecycle.  An event is a guard
construction (the spawn prologue of Builder::spawn), a guard destruction
(Drop for ThreadGuard, restricted to its registry effect), or a write to
a shared activity cell (the ThreadScope operations).  Beside the system
state we track which guards are alive together with their configured
full and short names, to state the registry invariant.
-/

/-- Shape of the state-changing steps the library performs. -/
inductive Event where
  | guardNew (id : Nat) (full short : String)
  | guardDrop (id : Nat)
  | setCell (ref : Nat) (v : Option String)
deriving DecidableEq, Repr

/-- System state plus the set of currently alive ThreadGuards with their
configured introspection names. -/
structure TraceState where
  sys : SysState
  alive : List (Nat × String × String)

/-- Initial trace state: empty registry, no guard alive. -/
def TraceState.initial : TraceState :=
  { sys := SysState.initial, alive := [] }

/-- Effect of one event.  guardNew runs the spawn prologue
(RegisteredStatus::new followed by ThreadGuard::new) for a builder whose
full and short names are as given; guardDrop runs the registry part of
Drop for ThreadGuard; setCell is a worker writing its activity cell. -/
def stepEvent (ts : TraceState) : Event → TraceState
  | .guardNew id full short =>
    { sys := (((Builder.new short).withFullName full).spawnRegister id ts.sys).1,
      alive := (id, full, short) :: ts.alive }
  | .guardDrop id =>
    { sys := deregister_thread id ts.sys,
      alive := ts.alive.filter (fun a => a.1 != id) }
  | .setCell ref v =>
    { ts with sys := writeCell ts.sys ref v }

/-- Run a list of events from a trace state. -/
def runEvents (ts : TraceState) : List Event → TraceState
  | [] => ts
  | e :: evs => runEvents (stepEvent ts e) evs

/-- A trace is valid when every guardNew uses a thread identity that is
not alive at that point: the spec guarantees identity uniqueness only
among currently-live registered threads, and that is the precondition
under which the registry invariant is stated. -/
def validFrom (ts : TraceState) : List Event → Bool
  | [] => true
  | e :: evs =>
    (match e with
     | .guardNew id _ _ => !(ts.alive.any (fun a => a.1 == id))
     | _ => true) && validFrom (stepEvent ts e) evs

/-- Registry invariant: alive guard ids are pairwise distinct, and a
guard with given names is alive exactly when the registry holds an entry
under its id whose stored names are the configured ones. -/
def RegistryInv (ts : TraceState) : Prop :=
  (ts.alive.map (fun a => a.1)).Nodup ∧
  ∀ id full short, (id, full, short) ∈ ts.alive ↔
    ∃ st, ts.sys.registry.lookup id = some st ∧
      st.name = full ∧ st.short_name = short

theorem lookup_filter_ne (l : List (Nat × RegisteredStatus)) (id k : Nat)
    (h : k ≠ id) : (l.filter (fun e => e.1 != id)).lookup k = l.lookup k := by
  induction l with
  | nil => rfl
  | cons e es ih =>
    obtain ⟨a, b⟩ := e
    by_cases he : a = id
    · have h1 : (a != id) = false := by simp [he]
      have h2 : (k == a) = false := by rw [beq_eq_false_iff_ne]; omega
      simp [List.filter_cons, h1, List.lookup_cons, h2, ih]
    · have h1 : (a != id) = true := by simp [he]
      by_cases hk : k = a
      · have h2 : (k == a) = true := by simp [hk]
        simp [List.filter_cons, h1, List.lookup_cons, h2]
      · have h2 : (k == a) = false := by simp [hk]
        simp [List.filter_cons, h1, List.lookup_cons, h2, ih]

theorem lookup_filter_self (l : List (Nat × RegisteredStatus)) (id : Nat) :
    (l.filter (fun e => e.1 != id)).lookup id = none := by
  induction l with
  | nil => rfl
  | cons e es ih =>
    obtain ⟨a, b⟩ := e
    by_cases he : a = id
    · have h1 : (a != id) = false := by simp [he]
      simp [List.filter_cons, h1, ih]
    · have h1 : (a != id) = true := by simp [he]
      have h2 : (id == a) = false := by rw [beq_eq_false_iff_ne]; omega
      simp [List.filter_cons, h1, List.lookup_cons, h2, ih]

theorem lookup_mem (l : List (Nat × RegisteredStatus)) (id : Nat)
    (st : RegisteredStatus) (h : l.lookup id = some st) : (id, st) ∈ l := by
  induction l with
  | nil => simp [List.lookup] at h
  | cons e es ih =>
    obtain ⟨a, b⟩ := e
    rw [List.lookup_cons] at h
    by_cases he : id = a
    · have hb : (id == a) = true := by simp [he]
      rw [hb] at h
      simp only [Option.some.injEq] at h
      rw [he, h]
      exact List.mem_cons_self _ _
    · have hb : (id == a) = false := by simp [he]
      rw [hb] at h
      exact List.mem_cons_of_mem _ (ih h)

theorem stepEvent_guardNew_registry (ts : TraceState) (id : Nat)
    (full short : String) :
    (stepEvent ts (Event.guardNew id full short)).sys.registry =
      (id, { activityRef := ts.sys.nextCell, name := full,
             short_name := short }) ::
        ts.sys.registry.filter (fun e => e.1 != id) := rfl

theorem registryInv_initial : RegistryInv TraceState.initial := by
  constructor
  · simp [TraceState.initial]
  · intro id full short
    simp [TraceState.initial, SysState.initial]

theorem registryInv_step (ts : TraceState) (e : Event)
    (hinv : RegistryInv ts)
    (hok : (match e with
            | Event.guardNew id _ _ => !(ts.alive.any (fun a => a.1 == id))
            | _ => true) = true) :
    RegistryInv (stepEvent ts e) := by
  obtain ⟨hnodup, hiff⟩ := hinv
  cases e with
  | guardNew id full short =>
    have hfresh : ∀ a ∈ ts.alive, a.1 ≠ id := by
      intro a ha
      simp only [Bool.not_eq_true', List.any_eq_false] at hok
      have := hok a ha
      simpa using this
    constructor
    · simp only [stepEvent, List.map_cons, List.nodup_cons]
      refine ⟨?_, hnodup⟩
      intro hmem
      obtain ⟨a, ha, ha1⟩ := List.mem_map.mp hmem
      exact hfresh a ha ha1
    · intro id' full' short'
      rw [show (stepEvent ts (Event.guardNew id full short)).alive =
            (id, full, short) :: ts.alive from rfl]
      rw [stepEvent_guardNew_registry]
      by_cases hid : id' = id
      · subst hid
        have hbeq : (id' == id') = true := by simp
        constructor
        · intro hmem
          rcases List.mem_cons.mp hmem with h | h
          · simp only [Prod.mk.injEq] at h
            obtain ⟨-, hf, hs⟩ := h
            refine ⟨{ activityRef := ts.sys.nextCell, name := full,
                      short_name := short }, ?_, hf.symm, hs.symm⟩
            rw [List.lookup_cons]
            simp
          · exact absurd rfl (hfresh _ h)
        · intro ⟨st, hst, hn, hs⟩
          rw [List.lookup_cons] at hst
          simp only [hbeq] at hst
          simp only [Option.some.injEq] at hst
          rw [← hst] at hn hs
          simp only [← hn, ← hs]
          exact List.mem_cons_self _ _
      · have hbeq : (id' == id) = false := by simp [hid]
        constructor
        · intro hmem
          rcases List.mem_cons.mp hmem with h | h
          · simp only [Prod.mk.injEq] at h
            exact absurd h.1 hid
          · obtain ⟨st, hst, hn, hs⟩ := (hiff id' full' short').mp h
            refine ⟨st, ?_, hn, hs⟩
            rw [List.lookup_cons]
            simp only [hbeq]
            rw [lookup_filter_ne _ _ _ hid]
            exact hst
        · intro ⟨st, hst, hn, hs⟩
          rw [List.lookup_cons] at hst
          simp only [hbeq] at hst
          rw [lookup_filter_ne _ _ _ hid] at hst
          exact List.mem_cons_of_mem _
            ((hiff id' full' short').mpr ⟨st, hst, hn, hs⟩)
  | guardDrop id =>
    constructor
    · exact List.Nodup.sublist
        (List.Sublist.map _ (List.filter_sublist _)) hnodup
    · intro id' full' short'
      rw [show (stepEvent ts (Event.guardDrop id)).alive =
            ts.alive.filter (fun a => a.1 != id) from rfl]
      rw [show (stepEvent ts (Event.guardDrop id)).sys.registry =
            ts.sys.registry.filter (fun e => e.1 != id) from rfl]
      by_cases hid : id' = id
      · subst hid
        constructor
        · intro hmem
          have := List.of_mem_filter hmem
          simp at this
        · intro ⟨st, hst, _, _⟩
          rw [lookup_filter_self] at hst
          exact absurd hst (by simp)
      · constructor
        · intro hmem
          obtain ⟨st, hst, hn, hs⟩ :=
            (hiff id' full' short').mp (List.mem_of_mem_filter hmem)
          refine ⟨st, ?_, hn, hs⟩
          rw [lookup_filter_ne _ _ _ hid]
          exact hst
        · intro ⟨st, hst, hn, hs⟩
          rw [lookup_filter_ne _ _ _ hid] at hst
          refine List.mem_filter.mpr
            ⟨(hiff id' full' short').mpr ⟨st, hst, hn, hs⟩, ?_⟩
          simp [hid]
  | setCell ref v =>
    constructor
    · exact hnodup
    · intro id' full' short'
      rw [show (stepEvent ts (Event.setCell ref v)).alive = ts.alive from rfl]
      rw [show (stepEvent ts (Event.setCell ref v)).sys.registry =
            ts.sys.registry from rfl]
      exact hiff id' full' short'

theorem validFrom_cons (ts : TraceState) (e : Event) (evs : List Event) :
    validFrom ts (e :: evs) =
      ((match e with
        | Event.guardNew id _ _ => !(ts.alive.any (fun a => a.1 == id))
        | _ => true) && validFrom (stepEvent ts e) evs) := rfl

theorem registryInv_run (evs : List Event) (ts : TraceState)
    (hinv : RegistryInv ts) (hvalid : validFrom ts evs = true) :
    RegistryInv (runEvents ts evs) := by
  induction evs generalizing ts with
  | nil => exact hinv
  | cons e evs ih =>
    rw [validFrom_cons, Bool.and_eq_true] at hvalid
    exact ih (stepEvent ts e) (registryInv_step ts e hinv hvalid.1) hvalid.2

/-- Iterated calls of MapThread.join. -/
def mapJoinIter {P S T : Type} (m : MapThread P S T) :
    Nat → Result P T × MapThread P S T
  | 0 => m.join
  | n + 1 => (mapJoinIter m n).2.join

theorem joinIter_none {P T : Type} (n : Nat) :
    joinIter ({ joinCell := none } : Thread P T) n =
      (Except.error ErrorKind.joinedAlready, { joinCell := none }) := by
  induction n with
  | zero => rfl
  | succ n ih => simp [joinIter, ih, Thread.join]

theorem mapJoinIter_none {P S T : Type} (n : Nat) :
    mapJoinIter ({ closure := none } : MapThread P S T) n =
      (Except.error ErrorKind.joinedAlready, { closure := none }) := by
  induction n with
  | zero => rfl
  | succ n ih => simp [mapJoinIter, ih, MapThread.join]

theorem join_ne_joinTimeout {P T : Type} (t : Thread P T) :
    (t.join).1 ≠ Except.error ErrorKind.joinTimeout := by
  match h : t.joinCell with
  | none => simp [Thread.join, h]
  | some (JoinOutcome.ok v) => simp [Thread.join, h, joinOutcomeResult]
  | some (JoinOutcome.panicked p) => simp [Thread.join, h, joinOutcomeResult]

theorem mapJoin_ne_joinTimeout {P S T : Type} (m : MapThread P S T) :
    (m.join).1 ≠ Except.error ErrorKind.joinTimeout := by
  match h : m.closure with
  | none => simp [MapThread.join, h]
  | some (none, f) => simp [MapThread.join, h, runMapClosure]
  | some (some (JoinOutcome.ok v), f) =>
    simp [MapThread.join, h, runMapClosure, joinOutcomeResult, Except.map]
  | some (some (JoinOutcome.panicked p), f) =>
    simp [MapThread.join, h, runMapClosure, joinOutcomeResult, Except.map]

theorem runFlagOps_true (ops : List FlagOp) : runFlagOps ops true = true := by
  induction ops with
  | nil => rfl
  | cons op ops ih =>
    have : applyFlagOp op true = true := by cases op <;> rfl
    simp [runFlagOps] at ih ⊢
    rw [this]
    exact ih

/-- C2: join is single-use and exclusive.  On a Thread handle whose join
capability is unconsumed and whose worker terminates with outcome o, the
first join returns the worker result on normal return and a Join error
carrying the panic payload on fault, and every subsequent call (a call
finding the capability already taken, which is also what a call losing
the race for the RefCell borrow observes) returns JoinedAlready; the same
holds for a MapThread handle. -/
theorem c2_join_single_use {P T S U : Type} (t : Thread P T)
    (o : JoinOutcome P T) (ht : t.joinCell = some o)
    (m : MapThread P S U) (cap : Option (JoinOutcome P S)) (f : S → U)
    (hm : m.closure = some (cap, f)) :
    ((t.join).1 = joinOutcomeResult o) ∧
    (∀ v, o = JoinOutcome.ok v → (t.join).1 = Except.ok v) ∧
    (∀ p, o = JoinOutcome.panicked p →
      (t.join).1 = Except.error (ErrorKind.join p)) ∧
    (∀ n, (joinIter (t.join).2 n).1 = Except.error ErrorKind.joinedAlready) ∧
    ((m.join).1 = runMapClosure cap f) ∧
    (∀ n, (mapJoinIter (m.join).2 n).1 =
      Except.error ErrorKind.joinedAlready) := by
  have ht2 : (t.join).2 = { joinCell := none } := by simp [Thread.join, ht]
  have hm2 : (m.join).2 = { closure := none } := by simp [MapThread.join, hm]
  refine ⟨by simp [Thread.join, ht], ?_, ?_, ?_, by simp [MapThread.join, hm], ?_⟩
  · intro v hv
    simp [Thread.join, ht, hv, joinOutcomeResult]
  · intro p hp
    simp [Thread.join, ht, hp, joinOutcomeResult]
  · intro n
    rw [ht2, joinIter_none]
  · intro n
    rw [hm2, mapJoinIter_none]

/-- C3: join_timeout returns JoinTimeout exactly when the join-check
receive times out; a timeout leaves the handle (and hence the join
capability) untouched so a later join still returns the worker outcome,
while a received signal or a disconnected sender falls through to a
normal join, for both Thread and MapThread handles. -/
theorem c3_join_timeout_two_phase {P T S U : Type} (t : Thread P T)
    (m : MapThread P S U) :
    (∀ r, (t.join_timeout r).1 = Except.error ErrorKind.joinTimeout ↔
      r = RecvOutcome.timeout) ∧
    ((t.join_timeout RecvOutcome.timeout).2 = t) ∧
    (∀ o, t.joinCell = some o →
      (((t.join_timeout RecvOutcome.timeout).2).join).1 = joinOutcomeResult o) ∧
    (t.join_timeout RecvOutcome.received = t.join) ∧
    (t.join_timeout RecvOutcome.disconnected = t.join) ∧
    (∀ r, (m.join_timeout r).1 = Except.error ErrorKind.joinTimeout ↔
      r = RecvOutcome.timeout) ∧
    ((m.join_timeout RecvOutcome.timeout).2 = m) ∧
    (m.join_timeout RecvOutcome.received = m.join) ∧
    (m.join_timeout RecvOutcome.disconnected = m.join) := by
  refine ⟨?_, rfl, ?_, rfl, rfl, ?_, rfl, rfl, rfl⟩
  · intro r
    cases r with
    | received => simpa [Thread.join_timeout] using join_ne_joinTimeout t
    | timeout => simp [Thread.join_timeout]
    | disconnected => simpa [Thread.join_timeout] using join_ne_joinTimeout t
  · intro o ho
    simp [Thread.join_timeout, Thread.join, ho]
  · intro r
    cases r with
    | received => simpa [MapThread.join_timeout] using mapJoin_ne_joinTimeout m
    | timeout => simp [MapThread.join_timeout]
    | disconnected =>
      simpa [MapThread.join_timeout] using mapJoin_ne_joinTimeout m

/-- C6: the shutdown flag starts false, should_shutdown reads the flag,
request_shutdown sets it to true and is idempotent, and no flag-touching
operation of the system (the store of request_shutdown or the load of
should_shutdown are the only ones in the sources) ever resets a true
flag to false. -/
theorem c6_shutdown_flag_monotone :
    (shutdownInit = false) ∧
    (∀ b, should_shutdown b = b) ∧
    (∀ b, request_shutdown b = true) ∧
    (∀ b, request_shutdown (request_shutdown b) = request_shutdown b) ∧
    (∀ ops, runFlagOps ops true = true) :=
  ⟨rfl, fun _ => rfl, fun _ => rfl, fun _ => rfl, runFlagOps_true⟩

/-- C7: map is lazy and composes with join.  Building the mapped handle
only repackages the unconsumed join capability together with the
transform (the captured capability is the same for every transform, so
nothing of f is evaluated and the OS join is not consumed), and joining
the MapThread performs the original join and then applies f to a success
value, returning the unmapped Join error on a panic; built from a
never-joined handle, the mapped join performs the underlying join. -/
theorem c7_map_lazy_compose {P S T : Type} (t : Thread P S) (f : S → T) :
    ((t.map f).closure = some (t.joinCell, f)) ∧
    (∀ g : S → T, ((t.map g).closure).map Prod.fst = some t.joinCell) ∧
    (∀ v, t.joinCell = some (JoinOutcome.ok v) →
      ((t.map f).join).1 = Except.ok (f v)) ∧
    (∀ p, t.joinCell = some (JoinOutcome.panicked p) →
      ((t.map f).join).1 = Except.error (ErrorKind.join p)) ∧
    (∀ o, t.joinCell = some o →
      ((t.map f).join).1 = (joinOutcomeResult o).map f) := by
  refine ⟨rfl, fun g => rfl, ?_, ?_, ?_⟩
  · intro v hv
    simp [Thread.map, MapThread.join, hv, runMapClosure, joinOutcomeResult,
      Except.map]
  · intro p hp
    simp [Thread.map, MapThread.join, hp, runMapClosure, joinOutcomeResult,
      Except.map]
  · intro o ho
    simp [Thread.map, MapThread.join, ho, runMapClosure]

theorem releaseAllRev_mkGuards_drop (ts : List String) (cell : Option String)
    (i : Nat) (h : i < ts.length) (later : Option String) :
    releaseAllRev ((mkGuards cell ts).1.drop i) later =
      (cellBefore cell ts).getD i none := by
  induction ts generalizing cell i with
  | nil => simp at h
  | cons t ts ih =>
    cases i with
    | zero =>
      simp [mkGuards, scoped_activity, releaseAllRev, cellBefore,
        ThreadScopeActivityGuard.drop]
    | succ j =>
      have hj : j < ts.length := by simpa using h
      have hstep : (mkGuards cell (t :: ts)).1 =
          { current := cell } :: (mkGuards (some t) ts).1 := by
        simp [mkGuards, scoped_activity]
      rw [hstep, List.drop_succ_cons, ih (some t) j hj]
      simp [cellBefore]

/-- C1: registry membership tracks guard lifetime.  Along any valid
interleaving of guard constructions (each registering under an identity
not currently alive, the uniqueness the spec guarantees for live
threads), guard drops and activity writes, starting from the empty
registry: an identity has a registry entry exactly when a guard with
that identity is alive, and while one is alive the snapshot contains an
entry whose name and short_name are the configured full and short
names. -/
theorem c1_registry_tracks_guard_lifetime (evs : List Event)
    (hvalid : validFrom TraceState.initial evs = true) :
    (∀ id, (∃ st, (runEvents TraceState.initial evs).sys.registry.lookup id
        = some st) ↔
      ∃ full short, (id, full, short) ∈
        (runEvents TraceState.initial evs).alive) ∧
    (∀ id full short,
      (id, full, short) ∈ (runEvents TraceState.initial evs).alive →
      ∃ t ∈ registered_threads (runEvents TraceState.initial evs).sys,
        t.name = full ∧ t.short_name = short) := by
  obtain ⟨hnodup, hiff⟩ :=
    registryInv_run evs TraceState.initial registryInv_initial hvalid
  constructor
  · intro id
    constructor
    · rintro ⟨st, hst⟩
      exact ⟨st.name, st.short_name,
        (hiff id st.name st.short_name).mpr ⟨st, hst, rfl, rfl⟩⟩
    · rintro ⟨full, short, hmem⟩
      obtain ⟨st, hst, -, -⟩ := (hiff id full short).mp hmem
      exact ⟨st, hst⟩
  · intro id full short hmem
    obtain ⟨st, hst, hn, hs⟩ := (hiff id full short).mp hmem
    refine ⟨threadStatusFrom (runEvents TraceState.initial evs).sys st,
      ?_, hn, hs⟩
    exact List.mem_map.mpr ⟨(id, st), lookup_mem _ _ _ hst, rfl⟩

/-- C4: scoped_activity swaps in the new text while capturing the
previous cell contents (including an absent one), dropping the guard
restores exactly the captured value, and for nested guards released in
reverse creation order each release restores the contents that were
active immediately before that guard was created. -/
theorem c4_scoped_activity_restores (cell : Option String) (text : String) :
    ((scoped_activity cell text).2 = some text) ∧
    ((scoped_activity cell text).1.current = cell) ∧
    (∀ later, ThreadScopeActivityGuard.drop
      (scoped_activity cell text).1 later = cell) ∧
    (∀ ts i, i < ts.length → ∀ later,
      releaseAllRev ((mkGuards cell ts).1.drop i) later =
        (cellBefore cell ts).getD i none) :=
  ⟨rfl, rfl, fun _ => rfl,
   fun ts i h later => releaseAllRev_mkGuards_drop ts cell i h later⟩

/-- C5: dropping the ThreadGuard removes the thread entry from the
registry and makes one non-blocking try_send on the join-check channel
on the same drop; a failed send changes nothing and is silently
ignored (the drop still deregisters), and the drop touches neither the
activity cells nor other registry keys beyond removing its own. -/
theorem c5_guard_drop_deregisters_and_signals (g : ThreadGuard)
    (ch : Channel) (s : SysState) :
    ((g.drop ch s).2.registry.lookup g.id = none) ∧
    ((g.drop ch s).2 = deregister_thread g.id s) ∧
    ((g.drop ch s).1 = (ch.try_send).1) ∧
    ((g.drop ch s).2.cells = s.cells) ∧
    (∀ k, k ≠ g.id →
      (g.drop ch s).2.registry.lookup k = s.registry.lookup k) ∧
    ((ch.try_send).2 = false →
      (g.drop ch s).1 = (ch.try_send).1 ∧
      (g.drop ch s).2.registry.lookup g.id = none) :=
  ⟨lookup_filter_self _ _, rfl, rfl, rfl,
   fun k hk => lookup_filter_ne _ _ _ hk,
   fun _ => ⟨rfl, lookup_filter_self _ _⟩⟩

/-- C8: registered_threads builds a point-in-time copy: every returned
ThreadStatus clones the registered name, short_name and the current
activity cell contents; writing an activity cell or removing a registry
entry afterwards is visible only to a later call (which re-reads the
state), the registry itself being untouched by the cell write. -/
theorem c8_snapshot_point_in_time (s : SysState) (id : Nat)
    (st : RegisteredStatus) (v : Option String)
    (h : s.registry.lookup id = some st) :
    (registered_threads s = s.registry.map (fun e =>
      { activity := s.cells e.2.activityRef, name := e.2.name,
        short_name := e.2.short_name })) ∧
    (threadStatusFrom s st ∈ registered_threads s) ∧
    ((threadStatusFrom s st).activity = s.cells st.activityRef) ∧
    ((threadStatusFrom s st).name = st.name) ∧
    ((threadStatusFrom s st).short_name = st.short_name) ∧
    ((threadStatusFrom (writeCell s st.activityRef v) st).activity = v) ∧
    ((writeCell s st.activityRef v).registry = s.registry) ∧
    ((deregister_thread id s).registry.lookup id = none) := by
  refine ⟨rfl, ?_, rfl, rfl, rfl, ?_, rfl, lookup_filter_self _ _⟩
  · exact List.mem_map.mpr ⟨(id, st), lookup_mem _ _ _ h, rfl⟩
  · simp [threadStatusFrom, writeCell]

/-- C9: when Builder::full_name is never called, the full name defaults
to the short name: spawning from Builder::new with name n registers a
status whose name and short_name are both n, and the snapshot shows
them. -/
theorem c9_default_full_name (n : String) (id : Nat) (s : SysState) :
    ((Builder.new n).full_name = n) ∧
    ∃ st, ((Builder.new n).spawnRegister id s).1.registry.lookup id
        = some st ∧
      st.name = n ∧ st.short_name = n ∧
      threadStatusFrom ((Builder.new n).spawnRegister id s).1 st ∈
        registered_threads ((Builder.new n).spawnRegister id s).1 ∧
      (threadStatusFrom ((Builder.new n).spawnRegister id s).1 st).name = n ∧
      (threadStatusFrom ((Builder.new n).spawnRegister id s).1 st).short_name
        = n := by
  have hreg : ((Builder.new n).spawnRegister id s).1.registry =
      (id, { activityRef := s.nextCell, name := n, short_name := n }) ::
        s.registry.filter (fun e => e.1 != id) := rfl
  refine ⟨rfl, { activityRef := s.nextCell, name := n, short_name := n },
    ?_, rfl, rfl, ?_, rfl, rfl⟩
  · rw [hreg, List.lookup_cons]
    simp
  · refine List.mem_map.mpr ⟨(id,
      { activityRef := s.nextCell, name := n, short_name := n }), ?_, rfl⟩
    rw [hreg]
    exact List.mem_cons_self _ _

/-- C10: a freshly registered thread reports no activity.
RegisteredStatus::new allocates its shared activity cell holding none,
and right after the spawn prologue (before any worker activity call) the
registered entry snapshots with activity absent. -/
theorem c10_fresh_registration_no_activity (name short : String)
    (s : SysState) (b : Builder) (id : Nat) :
    (((RegisteredStatus.new name short s).2).cells
        ((RegisteredStatus.new name short s).1.activityRef) = none) ∧
    ∃ st, ((b.spawnRegister id s).1).registry.lookup id = some st ∧
      (threadStatusFrom (b.spawnRegister id s).1 st).activity = none ∧
      threadStatusFrom (b.spawnRegister id s).1 st ∈
        registered_threads (b.spawnRegister id s).1 := by
  have hreg : (b.spawnRegister id s).1.registry =
      (id, { activityRef := s.nextCell, name := b.full_name,
             short_name := b.name }) ::
        s.registry.filter (fun e => e.1 != id) := rfl
  refine ⟨by simp [RegisteredStatus.new],
    { activityRef := s.nextCell, name := b.full_name, short_name := b.name },
    ?_, ?_, ?_⟩
  · rw [hreg, List.lookup_cons]
    simp
  · simp [threadStatusFrom, Builder.spawnRegister, RegisteredStatus.new,
      ThreadGuard.new, register_thread]
  · refine List.mem_map.mpr ⟨(id,
      { activityRef := s.nextCell, name := b.full_name,
        short_name := b.name }), ?_, rfl⟩
    rw [hreg]
    exact List.mem_cons_self _ _

theorem c1_registry_tracks_guard_lifetime_witness :
    validFrom TraceState.initial
      [Event.guardNew 7 "worker full" "worker"] = true ∧
    ∃ t ∈ registered_threads
      (runEvents TraceState.initial
        [Event.guardNew 7 "worker full" "worker"]).sys,
      t.name = "worker full" ∧ t.short_name = "worker" :=
  ⟨rfl,
   (c1_registry_tracks_guard_lifetime
     [Event.guardNew 7 "worker full" "worker"] rfl).2
     7 "worker full" "worker" (by decide)⟩

theorem c2_join_single_use_witness :
    (({ joinCell := some (JoinOutcome.ok 3) } :
        Thread String Nat).joinCell = some (JoinOutcome.ok 3)) ∧
    (({ closure := some (some (JoinOutcome.ok 2), fun x => x + 1) } :
        MapThread String Nat Nat).closure =
      some (some (JoinOutcome.ok 2), fun x => x + 1)) ∧
    ((({ joinCell := some (JoinOutcome.ok 3) } :
        Thread String Nat).join).1 = Except.ok 3) ∧
    ((joinIter (({ joinCell := some (JoinOutcome.ok 3) } :
        Thread String Nat).join).2 4).1 =
      Except.error ErrorKind.joinedAlready) :=
  ⟨rfl, rfl,
   (c2_join_single_use _ _ rfl
     ({ closure := some (some (JoinOutcome.ok 2), fun x => x + 1) } :
       MapThread String Nat Nat) _ _ rfl).2.1 3 rfl,
   (c2_join_single_use
     ({ joinCell := some (JoinOutcome.ok 3) } : Thread String Nat) _ rfl
     ({ closure := some (some (JoinOutcome.ok 2), fun x => x + 1) } :
       MapThread String Nat Nat) _ _ rfl).2.2.2.1 4⟩

theorem c3_join_timeout_two_phase_witness :
    ((({ joinCell := some (JoinOutcome.ok 3) } :
        Thread String Nat).join_timeout RecvOutcome.timeout).1 =
      Except.error ErrorKind.joinTimeout) ∧
    ((({ joinCell := some (JoinOutcome.ok 3) } :
        Thread String Nat).join_timeout RecvOutcome.timeout).2 =
      { joinCell := some (JoinOutcome.ok 3) }) ∧
    (((({ joinCell := some (JoinOutcome.ok 3) } :
        Thread String Nat).join_timeout RecvOutcome.timeout).2.join).1 =
      joinOutcomeResult (JoinOutcome.ok 3)) :=
  ⟨((c3_join_timeout_two_phase
      ({ joinCell := some (JoinOutcome.ok 3) } : Thread String Nat)
      ({ closure := none } : MapThread String Nat Nat)).1
      RecvOutcome.timeout).mpr rfl,
   (c3_join_timeout_two_phase
      ({ joinCell := some (JoinOutcome.ok 3) } : Thread String Nat)
      ({ closure := none } : MapThread String Nat Nat)).2.1,
   (c3_join_timeout_two_phase
      ({ joinCell := some (JoinOutcome.ok 3) } : Thread String Nat)
      ({ closure := none } : MapThread String Nat Nat)).2.2.1
      (JoinOutcome.ok 3) rfl⟩

theorem c4_scoped_activity_restores_witness :
    ((scoped_activity none "A").2 = some "A") ∧
    ((scoped_activity none "A").1.current = none) ∧
    (ThreadScopeActivityGuard.drop (scoped_activity none "A").1
      (some "B") = none) ∧
    (releaseAllRev ((mkGuards none ["A", "B"]).1.drop 1) (some "B") =
      (cellBefore none ["A", "B"]).getD 1 none) :=
  ⟨(c4_scoped_activity_restores none "A").1,
   (c4_scoped_activity_restores none "A").2.1,
   (c4_scoped_activity_restores none "A").2.2.1 (some "B"),
   (c4_scoped_activity_restores none "A").2.2.2 ["A", "B"] 1
     (by decide) (some "B")⟩

theorem c5_guard_drop_deregisters_and_signals_witness :
    ((ThreadGuard.drop { id := 5 } { buffered := 1, receiverAlive := true }
      { registry := [(5, { activityRef := 0, name := "n",
                           short_name := "s" })],
        cells := fun _ => none,
        nextCell := 1 }).2.registry.lookup 5 = none) ∧
    ((ThreadGuard.drop { id := 5 } { buffered := 1, receiverAlive := true }
      { registry := [(5, { activityRef := 0, name := "n",
                           short_name := "s" })],
        cells := fun _ => none,
        nextCell := 1 }).1 =
      (Channel.try_send { buffered := 1, receiverAlive := true }).1) ∧
    ((Channel.try_send { buffered := 1, receiverAlive := true }).2 =
      false) :=
  ⟨(c5_guard_drop_deregisters_and_signals { id := 5 }
      { buffered := 1, receiverAlive := true }
      { registry := [(5, { activityRef := 0, name := "n",
                           short_name := "s" })],
        cells := fun _ => none, nextCell := 1 }).1,
   ((c5_guard_drop_deregisters_and_signals { id := 5 }
      { buffered := 1, receiverAlive := true }
      { registry := [(5, { activityRef := 0, name := "n",
                           short_name := "s" })],
        cells := fun _ => none, nextCell := 1 }).2.2.2.2.2 rfl).1,
   rfl⟩

theorem c7_map_lazy_compose_witness :
    ((Thread.map ({ joinCell := some (JoinOutcome.ok 4) } :
        Thread String Nat) (fun x => x * 2)).closure =
      some (some (JoinOutcome.ok 4), fun x => x * 2)) ∧
    (((Thread.map ({ joinCell := some (JoinOutcome.ok 4) } :
        Thread String Nat) (fun x => x * 2)).join).1 = Except.ok 8) ∧
    (((Thread.map ({ joinCell := some (JoinOutcome.panicked "boom") } :
        Thread String Nat) (fun x => x * 2)).join).1 =
      Except.error (ErrorKind.join "boom")) :=
  ⟨(c7_map_lazy_compose
      ({ joinCell := some (JoinOutcome.ok 4) } : Thread String Nat)
      (fun x => x * 2)).1,
   (c7_map_lazy_compose
      ({ joinCell := some (JoinOutcome.ok 4) } : Thread String Nat)
      (fun x => x * 2)).2.2.1 4 rfl,
   (c7_map_lazy_compose
      ({ joinCell := some (JoinOutcome.panicked "boom") } :
        Thread String Nat)
      (fun x => x * 2)).2.2.2.1 "boom" rfl⟩

theorem c8_snapshot_point_in_time_witness :
    (SysState.registry
      { registry := [(1, { activityRef := 0, name := "full",
                           short_name := "short" })],
        cells := fun k => if k = 0 then some "busy" else none,
        nextCell := 1 }).lookup 1 =
      some { activityRef := 0, name := "full", short_name := "short" } ∧
    (threadStatusFrom
      { registry := [(1, { activityRef := 0, name := "full",
                           short_name := "short" })],
        cells := fun k => if k = 0 then some "busy" else none,
        nextCell := 1 }
      { activityRef := 0, name := "full",
        short_name := "short" }).activity = some "busy" ∧
    (threadStatusFrom
      (writeCell
        { registry := [(1, { activityRef := 0, name := "full",
                             short_name := "short" })],
          cells := fun k => if k = 0 then some "busy" else none,
          nextCell := 1 } 0 (some "later"))
      { activityRef := 0, name := "full",
        short_name := "short" }).activity = some "later" :=
  ⟨rfl,
   (c8_snapshot_point_in_time
     { registry := [(1, { activityRef := 0, name := "full",
                          short_name := "short" })],
       cells := fun k => if k = 0 then some "busy" else none,
       nextCell := 1 } 1
     { activityRef := 0, name := "full", short_name := "short" }
     (some "later") rfl).2.2.1,
   (c8_snapshot_point_in_time
     { registry := [(1, { activityRef := 0, name := "full",
                          short_name := "short" })],
       cells := fun k => if k = 0 then some "busy" else none,
       nextCell := 1 } 1
     { activityRef := 0, name := "full", short_name := "short" }
     (some "later") rfl).2.2.2.2.2.1⟩

end Humthreads
